import Mathlib

/-!
Verification of the AP2 travel-agent demo frontend (observability pipeline,
checkout sequencer, tamper detector) against its natural-language
specification.  The JavaScript source in
`src/frontend/src/components/AP2Debugger.jsx`, `CheckoutFlow.jsx` and
`MandateViewer.jsx` is shallowly embedded below: strings are `List Char`,
the two JS regexes are modelled by leftmost-match scanners, React state
updates become pure state-transition functions, and the event-driven
stream client becomes a small-step transition system over an explicit
event trace.
-/

/- ## String utilities (JS semantics over List Char) -/

/-- Does the list start with the given pattern? (JS `String.startsWith`). -/
def startsWithSub : List Char → List Char → Bool
  | _, [] => true
  | [], _ :: _ => false
  | c :: s, d :: p => (c == d) && startsWithSub s p

/-- Does the list contain the pattern as a contiguous substring?
(JS `String.includes`). -/
def containsSub : List Char → List Char → Bool
  | [], p => p.isEmpty
  | c :: rest, p => startsWithSub (c :: rest) p || containsSub rest p

/-- ASCII lower-casing, as JS `toLowerCase` acts on the ASCII log text. -/
def toLowerStr (s : List Char) : List Char := s.map Char.toLower

/-- JS regex `\w` character class: `[A-Za-z0-9_]`. -/
def isWordChar (c : Char) : Bool := c.isAlphanum || c == '_'

/-- JS regex `\s` on the whitespace actually occurring in log lines. -/
def isSpaceChar (c : Char) : Bool :=
  c == ' ' || c == '\t' || c == '\n' || c == '\r'

/-- Try to match the regex `\[([^\]]+)\]` at the head of the list,
returning the captured group. -/
def bracketAt : List Char → Option (List Char)
  | '[' :: rest =>
      let tok := rest.takeWhile (fun c => !(c == ']'))
      if tok.isEmpty then none
      else if (rest.drop tok.length).isEmpty then none
      else some tok
  | _ => none

/-- Leftmost match of `\[([^\]]+)\]` (JS `String.match` first match):
scan every start position from the left. -/
def findBracket : List Char → Option (List Char)
  | [] => none
  | c :: rest =>
      match bracketAt (c :: rest) with
      | some tok => some tok
      | none => findBracket rest

/-- Try to match `([\w_]+)\s*→\s*([\w_]+)` at the head of the list.
Greedy `[\w_]+` needs no backtracking here because a word character can
never match the following `→`. -/
def arrowAt (s : List Char) : Option (List Char × List Char) :=
  let w1 := s.takeWhile isWordChar
  if w1.isEmpty then none
  else
    match (s.drop w1.length).dropWhile isSpaceChar with
    | '→' :: r3 =>
        let w2 := (r3.dropWhile isSpaceChar).takeWhile isWordChar
        if w2.isEmpty then none else some (w1, w2)
    | _ => none

/-- Leftmost match of the arrow regex over the whole list. -/
def findArrow : List Char → Option (List Char × List Char)
  | [] => none
  | c :: rest =>
      match arrowAt (c :: rest) with
      | some p => some p
      | none => findArrow rest

/-- JS `String.replace` with a plain-string pattern: replace only the
first occurrence (here always used to delete the occurrence). -/
def replaceFirst (pat : List Char) : List Char → List Char
  | [] => []
  | c :: rest =>
      if startsWithSub (c :: rest) pat then (c :: rest).drop pat.length
      else c :: replaceFirst pat rest

/-- JS `a || b` on strings, where the empty string (and an absent field,
which we also model as the empty string) is falsy. -/
def jsOr (a b : List Char) : List Char := if a.isEmpty then b else a

/- ## Data model (AP2Debugger.jsx) -/

/-- One server log entry as consumed by the debugger.  An absent
`agent`/`message` is modelled as the empty string since the source only
ever tests them for JS-falsiness or uses `|| fallback` / optional
chaining. -/
structure LogRecord where
  timestamp : List Char
  level : List Char
  agent : List Char
  message : List Char
  extra : Option (List (List Char × List Char))
  deriving Repr, DecidableEq

inductive Direction
  | outgoing
  | incoming
  deriving Repr, DecidableEq

inductive MsgStatus
  | success
  | error
  deriving Repr, DecidableEq

/-- A reconstructed inter-agent call (the object pushed by
`setMessages` in `AP2Debugger.jsx`).  The source's `from`/`to` fields
are named `fromAgent`/`toAgent` (`from` is a Lean keyword), matching the
local variable names in the source. -/
structure ProtocolMessage where
  id : Nat
  timestamp : List Char
  direction : Direction
  method : List Char
  fromAgent : List Char
  toAgent : List Char
  payload : List (List Char × List Char)
  status : MsgStatus
  rawMessage : List Char
  deriving Repr, DecidableEq

/-- The outbound sentinel substring tested by the classifier. -/
def a2aSentMark : List Char := "A2A SENT:".toList

/-- The inbound sentinel substring tested by the classifier. -/
def a2aRecvMark : List Char := "A2A RECEIVED:".toList

/-- The conventional suffix stripped from parsed agent names. -/
def agentSuffix : List Char := "_agent".toList

/-- The direction / from / to assignment of `AP2Debugger.jsx` lines
66-95: arrow parse with direction-dependent correction, falling back to
the record's own agent (or `"shopping"`) and `"unknown"`. -/
def parseDirFromTo (lg : LogRecord) (isA2ASent : Bool) :
    Direction × List Char × List Char :=
  match findArrow lg.message with
  | some (parsedFrom, parsedTo) =>
      if isA2ASent then
        (Direction.outgoing, jsOr lg.agent parsedFrom,
          replaceFirst agentSuffix parsedTo)
      else
        (Direction.incoming, replaceFirst agentSuffix parsedFrom,
          jsOr lg.agent parsedTo)
  | none =>
      (if isA2ASent then Direction.outgoing else Direction.incoming,
        jsOr lg.agent ("shopping".toList), ("unknown".toList))

/-- The log classifier of `AP2Debugger.jsx` lines 54-113: a record
yields a `ProtocolMessage` exactly when its text contains one of the two
A2A sentinels.  `idSeed` models the JS expression
`Date.now() + Math.random()`, an ambient value supplied by the runtime
at each invocation. -/
def classifyA2A (lg : LogRecord) (idSeed : Nat) : Option ProtocolMessage :=
  let isA2ASent := containsSub lg.message a2aSentMark
  let isA2AReceived := containsSub lg.message a2aRecvMark
  if isA2ASent || isA2AReceived then
    some
      { id := idSeed
        timestamp := lg.timestamp
        direction := (parseDirFromTo lg isA2ASent).1
        method := (findBracket lg.message).getD ("message".toList)
        fromAgent := (parseDirFromTo lg isA2ASent).2.1
        toAgent := (parseDirFromTo lg isA2ASent).2.2
        payload := lg.extra.getD []
        status := MsgStatus.success
        rawMessage := lg.message }
  else none

/-- Projection of a message onto the fields the test vectors talk
about: direction, from, to, method. -/
def dirFromToMethod (m : ProtocolMessage) :
    Direction × List Char × List Char × List Char :=
  (m.direction, m.fromAgent, m.toAgent, m.method)

/-- Erase the locally generated `id` (set it to a fixed value): two
messages agree on every field except `id` iff their erasures are
equal. -/
def msgCore (m : ProtocolMessage) : ProtocolMessage := { m with id := 0 }

/- ## Mandate timeline (MandateTimelineView, AP2Debugger.jsx lines 351-410) -/

inductive StageStatus
  | completed
  | pending
  deriving Repr, DecidableEq

/-- One of the five fixed timeline steps. -/
structure MandateStage where
  step : Nat
  name : List Char
  description : List Char
  status : StageStatus
  deriving Repr, DecidableEq

/-- The `relevantEvents` filter: text mentions mandate / a2a / package /
payment, case-insensitively. -/
def relevantEvent (lg : LogRecord) : Bool :=
  containsSub (toLowerStr lg.message) ("mandate".toList)
  || containsSub (toLowerStr lg.message) ("a2a".toList)
  || containsSub (toLowerStr lg.message) ("package".toList)
  || containsSub (toLowerStr lg.message) ("payment".toList)

/-- The per-record stage-1 vocabulary test (`hasIntent` body): contains
`IntentMandate` literally, or both `intent` and the stem `creat`
case-insensitively. -/
def intentEvidence (lg : LogRecord) : Bool :=
  containsSub lg.message ("IntentMandate".toList)
  || (containsSub (toLowerStr lg.message) ("intent".toList)
      && containsSub (toLowerStr lg.message) ("creat".toList))

/-- `hasIntent`: some relevant retained record carries intent evidence. -/
def hasIntent (logs : List LogRecord) : Bool :=
  (logs.filter relevantEvent).any intentEvidence

/-- `hasPackages`: package + (generat | found). -/
def hasPackages (logs : List LogRecord) : Bool :=
  (logs.filter relevantEvent).any fun e =>
    containsSub (toLowerStr e.message) ("package".toList)
    && (containsSub (toLowerStr e.message) ("generat".toList)
        || containsSub (toLowerStr e.message) ("found".toList))

/-- `hasCartMandate`: `CartMandate` literally, or cart + mandate. -/
def hasCartMandate (logs : List LogRecord) : Bool :=
  (logs.filter relevantEvent).any fun e =>
    containsSub e.message ("CartMandate".toList)
    || (containsSub (toLowerStr e.message) ("cart".toList)
        && containsSub (toLowerStr e.message) ("mandate".toList))

/-- `hasPayment`: `PaymentMandate` literally, or payment + process. -/
def hasPayment (logs : List LogRecord) : Bool :=
  (logs.filter relevantEvent).any fun e =>
    containsSub e.message ("PaymentMandate".toList)
    || (containsSub (toLowerStr e.message) ("payment".toList)
        && containsSub (toLowerStr e.message) ("process".toList))

/-- The `events` array of `MandateTimelineView`, recomputed from the
current raw-log buffer on every render. -/
def mandateTimeline (logs : List LogRecord) : List MandateStage :=
  [ { step := 1, name := ("Intent Capture".toList),
      description := ("User specifies travel preferences".toList),
      status := if hasIntent logs then StageStatus.completed else StageStatus.pending },
    { step := 2, name := ("Intent Signed".toList),
      description := ("IntentMandate created with spending limits".toList),
      status := if hasIntent logs then StageStatus.completed else StageStatus.pending },
    { step := 3, name := ("Merchant Cart".toList),
      description := ("Travel package assembled by merchant".toList),
      status := if hasPackages logs then StageStatus.completed else StageStatus.pending },
    { step := 4, name := ("Cart Mandate".toList),
      description := ("CartMandate signed by user and merchant".toList),
      status := if hasCartMandate logs then StageStatus.completed else StageStatus.pending },
    { step := 5, name := ("Payment Processed".toList),
      description := ("PaymentMandate executed with confirmation".toList),
      status := if hasPayment logs then StageStatus.completed else StageStatus.pending } ]

/- ## Bounded history buffers (AP2Debugger.jsx lines 52 and 100-113) -/

/-- One insertion: `[...prev.slice(-keep), x]`.  JS `slice(-keep)` keeps
the last `keep` elements, i.e. drops `length - keep` from the front. -/
def pushSliding (keep : Nat) (prev : List α) (x : α) : List α :=
  (prev.drop (prev.length - keep)) ++ [x]

/-- The buffer contents after delivering a whole arrival sequence to an
initially empty buffer. -/
def runBuffer (keep : Nat) (xs : List α) : List α :=
  xs.foldl (pushSliding keep) []

/- ## Tamper detector (MandateViewer.jsx lines 9-13) -/

/-- `isModified`: an edited serialization is present and differs
byte-for-byte from the canonical serialization
(`editedJson !== null && editedJson !== jsonString`). -/
def isModified (editedJson : Option (List Char)) (jsonString : List Char) : Bool :=
  !(editedJson == none) && !(editedJson == some jsonString)

/- ## Checkout sequencer (CheckoutFlow.jsx) -/

/-- The wizard's React state (`useState` fields of `CheckoutFlow`). -/
structure CheckoutState where
  currentStep : Nat
  intentSigned : Bool
  paymentMethods : List (List Char)
  selectedPaymentToken : Option (List Char)
  cartMandate : Option (List Char)
  cartSigned : Bool
  confirmation : Option (List Char)
  isProcessing : Bool
  partialCart : Option (List Char)
  error : Option (List Char)
  deriving Repr, DecidableEq

/-- Initial state of the wizard (the `useState` initialisers). -/
def initCheckout : CheckoutState :=
  { currentStep := 1, intentSigned := false, paymentMethods := [],
    selectedPaymentToken := none, cartMandate := none, cartSigned := false,
    confirmation := none, isProcessing := false, partialCart := none,
    error := none }

/-- Outcome of the `/api/create-cart-mandate` call as observed by
`handleSelectPayment`: a success body, a `success:false` body carrying
`data.error`, or a thrown fetch/parse error. -/
inductive CartMandateResult
  | ok (cartMandate : List Char)
  | fail (errMsg : List Char)
  | netError
  deriving Repr, DecidableEq

/-- `handleSelectPayment` (CheckoutFlow.jsx lines 100-126) as a state
transition given the call's outcome. -/
def handleSelectPayment (s : CheckoutState) (token : List Char)
    (r : CartMandateResult) : CheckoutState :=
  let s1 := { s with selectedPaymentToken := some token, isProcessing := true }
  let s2 :=
    match r with
    | CartMandateResult.ok m => { s1 with cartMandate := some m, currentStep := 4 }
    | CartMandateResult.fail e => { s1 with error := some e }
    | CartMandateResult.netError =>
        { s1 with error := some ("Failed to create cart mandate".toList) }
  { s2 with isProcessing := false }

/- ## Reconnecting stream client (AP2Debugger.jsx lines 39-135) -/

/-- Observable state of the stream client's effect scope.  Besides the
source's `isConnected` flag and the `eventSource` object (`esOpen`), we
track the un-cancelled `setTimeout` callbacks, the delay passed to each
`setTimeout` call, how many `connectToLogs` runs a timer triggered, and
how many connections were opened after the cleanup ran. -/
structure StreamState where
  isConnected : Bool
  esOpen : Bool
  pendingTimers : Nat
  scheduledDelays : List Nat
  connectsCount : Nat
  reconnectAttempts : Nat
  tornDown : Bool
  opensAfterTeardown : Nat
  deriving Repr, DecidableEq

/-- Events delivered by the browser runtime to the effect's closures. -/
inductive StreamEvent
  | onOpen
  | onError
  | timerFire
  | teardown
  deriving Repr, DecidableEq

/-- The fixed reconnection delay: `setTimeout(connectToLogs, 3000)`. -/
def reconnectDelayMs : Nat := 3000

/-- `connectToLogs`: constructs a fresh `EventSource`. -/
def connectToLogs (s : StreamState) : StreamState :=
  { s with esOpen := true,
           connectsCount := s.connectsCount + 1,
           opensAfterTeardown :=
             if s.tornDown then s.opensAfterTeardown + 1
             else s.opensAfterTeardown }

/-- One runtime event.  `onerror` closes the source and schedules exactly
one reconnection with the fixed delay; a firing timer runs
`connectToLogs`; the unmount cleanup closes the source but does not
touch the timers (the source never stores the timeout id). -/
def streamStep (s : StreamState) (e : StreamEvent) : StreamState :=
  match e with
  | StreamEvent.onOpen => { s with isConnected := true }
  | StreamEvent.onError =>
      { s with isConnected := false, esOpen := false,
               pendingTimers := s.pendingTimers + 1,
               scheduledDelays := s.scheduledDelays ++ [reconnectDelayMs] }
  | StreamEvent.timerFire =>
      if s.pendingTimers = 0 then s
      else
        connectToLogs
          { s with pendingTimers := s.pendingTimers - 1,
                   reconnectAttempts := s.reconnectAttempts + 1 }
  | StreamEvent.teardown => { s with esOpen := false, tornDown := true }

/-- State right after the effect mounts and calls `connectToLogs()`. -/
def initStreamState : StreamState :=
  connectToLogs
    { isConnected := false, esOpen := false, pendingTimers := 0,
      scheduledDelays := [], connectsCount := 0, reconnectAttempts := 0,
      tornDown := false, opensAfterTeardown := 0 }

/-- Fold a whole event trace. -/
def runStream (s : StreamState) (es : List StreamEvent) : StreamState :=
  es.foldl streamStep s

/-- Trace with three consecutive connection errors, each followed by its
reconnection timer firing, ending in a successful open. -/
def threeErrorsTrace : List StreamEvent :=
  [StreamEvent.onOpen, StreamEvent.onError, StreamEvent.timerFire,
   StreamEvent.onError, StreamEvent.timerFire,
   StreamEvent.onError, StreamEvent.timerFire, StreamEvent.onOpen]

/- ## Concrete records used in the test-vector theorems -/

/-- Canonical outbound test record from the spec's test vector. -/
def sentRec : LogRecord :=
  { timestamp := ("t0".toList), level := ("INFO".toList),
    agent := ("shipping_agent".toList),
    message := ("A2A SENT: shipping_agent → merchant_agent [quote]".toList),
    extra := none }

/-- Canonical inbound test record from the spec's test vector. -/
def recvRec : LogRecord :=
  { timestamp := ("t1".toList), level := ("INFO".toList),
    agent := ("shipping_agent".toList),
    message := ("A2A RECEIVED: merchant_agent → shipping_agent [cart]".toList),
    extra := none }

/-- A record whose message merely *contains* the outbound sentinel and
the vector text, but with an earlier bracket token and arrow pair. -/
def multiArrowRec : LogRecord :=
  { timestamp := ("t0".toList), level := ("INFO".toList),
    agent := ("shipping_agent".toList),
    message :=
      ("A2A SENT: alpha_agent → beta_agent [ping] shipping_agent → merchant_agent [quote]".toList),
    extra := none }

/-- An inbound record without any arrow pair: takes the fallback parse. -/
def noArrowRec : LogRecord :=
  { timestamp := ("t0".toList), level := ("INFO".toList),
    agent := ("shipping_agent".toList),
    message := ("A2A RECEIVED: hello".toList), extra := none }

/-- The message the classifier produces from `sentRec` with id seed 0. -/
def quoteMsg : ProtocolMessage :=
  { id := 0, timestamp := ("t0".toList), direction := Direction.outgoing,
    method := ("quote".toList), fromAgent := ("shipping_agent".toList),
    toAgent := ("merchant".toList), payload := [],
    status := MsgStatus.success,
    rawMessage := ("A2A SENT: shipping_agent → merchant_agent [quote]".toList) }

/-- A log record carrying stage-1 intent evidence for the timeline. -/
def intentLogRec : LogRecord :=
  { timestamp := ("t2".toList), level := ("INFO".toList),
    agent := ("shopping_agent".toList),
    message := ("IntentMandate created with spending limits".toList),
    extra := none }

/-- Canonical serialization of the tamper-detector example. -/
def canonA : List Char := "\x7b\"a\":1\x7d".toList

/-- Edited serialization: one whitespace character inserted. -/
def editedA : List Char := "\x7b\"a\": 1\x7d".toList

/-- A checkout state sitting on stage 3 (reached by the 2→3 user
"continue" action, `setCurrentStep(3)`). -/
def stage3State : CheckoutState := { initCheckout with currentStep := 3 }

/-- Concrete arguments for the checkout scenario. -/
def tokVisa : List Char := "tok_visa_4242".toList

/-- Server-provided error of the failing cart-mandate call. -/
def errBoom : List Char := "Cart mandate creation failed".toList

/-- Mandate blob returned by the succeeding retry. -/
def mandOne : List Char := "cart_mandate_1".toList

/-- State after a failing `createCartMandate` call on stage 3. -/
def stage3Failed : CheckoutState :=
  handleSelectPayment stage3State tokVisa (CartMandateResult.fail errBoom)

/-- State after the subsequent successful retry. -/
def stage4Retried : CheckoutState :=
  handleSelectPayment stage3Failed tokVisa (CartMandateResult.ok mandOne)

/- ## Theorems -/

/-- Helper: one sliding push on the length-capped suffix of `l` yields
the length-capped suffix of `l ++ [x]`. -/
theorem pushSliding_suffix (keep : Nat) (l : List α) (x : α) :
    pushSliding keep (l.drop (l.length - (keep + 1))) x
      = (l ++ [x]).drop ((l ++ [x]).length - (keep + 1)) := by
  unfold pushSliding
  rw [List.length_drop, List.drop_drop, List.drop_append_eq_append_drop,
    List.length_append]
  have e3 : l.length + [x].length - (keep + 1) - l.length = 0 := by
    simp
  rw [e3, List.drop_zero]
  congr 2
  simp only [List.length_singleton]
  omega

/-- Helper: folding sliding pushes starting from the capped suffix of a
prefix trace yields the capped suffix of the whole trace. -/
theorem runBuffer_aux (keep : Nat) :
    ∀ (xs ys : List α),
      List.foldl (pushSliding keep) (ys.drop (ys.length - (keep + 1))) xs
        = (ys ++ xs).drop ((ys ++ xs).length - (keep + 1)) := by
  intro xs
  induction xs with
  | nil => intro ys; simp
  | cons x xs ih =>
      intro ys
      rw [List.foldl_cons, pushSliding_suffix, ih (ys ++ [x])]
      simp

/-- The buffer after any arrival sequence is exactly the suffix of the
most recent `keep + 1` arrivals. -/
theorem runBuffer_eq (keep : Nat) (xs : List α) :
    runBuffer keep xs = xs.drop (xs.length - (keep + 1)) := by
  have h := runBuffer_aux keep xs []
  simpa [runBuffer] using h

/-- Claim C2: for every sequence of records delivered to the history
buffers, the raw-log buffer (one `[...prev.slice(-499), log]` insertion
per record) never exceeds 500 entries and the classified-message buffer
(`[...prev.slice(-99), msg]`) never exceeds 100, and after every
insertion the retained entries are exactly the most recently arrived
records, in arrival order (strict FIFO eviction). -/
theorem buffers_bounded_and_fifo :
    ∀ (xs : List LogRecord) (ms : List ProtocolMessage),
      (runBuffer 499 xs).length ≤ 500
      ∧ runBuffer 499 xs = xs.drop (xs.length - 500)
      ∧ (runBuffer 99 ms).length ≤ 100
      ∧ runBuffer 99 ms = ms.drop (ms.length - 100) := by
  intro xs ms
  have h1 := runBuffer_eq 499 xs
  have h2 := runBuffer_eq 99 ms
  norm_num at h1 h2
  refine ⟨?_, h1, ?_, h2⟩
  · rw [h1, List.length_drop]; omega
  · rw [h2, List.length_drop]; omega

/-- Claim C1 counterexample: a record whose message *contains* the
outbound sentinel together with the text
`shipping_agent → merchant_agent [quote]` and whose agent is
`shipping_agent`, yet — because the classifier uses the *first* regex
match in the whole message — is classified with method `ping` and
destination `beta`, not method `quote` and destination `merchant`. -/
theorem classifier_containment_not_sufficient :
    containsSub multiArrowRec.message a2aSentMark = true
    ∧ containsSub multiArrowRec.message
        ("shipping_agent → merchant_agent [quote]".toList) = true
    ∧ multiArrowRec.agent = ("shipping_agent".toList)
    ∧ (classifyA2A multiArrowRec 0).map dirFromToMethod
        = some (Direction.outgoing, ("shipping_agent".toList),
            ("beta".toList), ("ping".toList))
    ∧ ¬ ((classifyA2A multiArrowRec 0).map dirFromToMethod
        = some (Direction.outgoing, ("shipping_agent".toList),
            ("merchant".toList), ("quote".toList))) := by
  decide

/-- Claim C1 (amended): a record containing the outbound sentinel whose
*first* bracket token is `quote`, whose *first* arrow pair is
`shipping_agent → merchant_agent`, and whose agent is `shipping_agent`
yields `{direction: outgoing, from: shipping_agent, to: merchant,
method: quote}`; a record containing the inbound sentinel (and not the
outbound one, which takes priority) with first bracket `cart` and first
arrow `merchant_agent → shipping_agent` and agent `shipping_agent`
yields `{direction: incoming, from: merchant, to: shipping_agent,
method: cart}`. -/
theorem classifier_first_match_vectors (lg lg' : LogRecord) (t t' : Nat)
    (hs : containsSub lg.message a2aSentMark = true)
    (hb : findBracket lg.message = some ("quote".toList))
    (ha : findArrow lg.message
      = some (("shipping_agent".toList), ("merchant_agent".toList)))
    (hag : lg.agent = ("shipping_agent".toList))
    (hr2 : containsSub lg'.message a2aRecvMark = true)
    (hs2 : containsSub lg'.message a2aSentMark = false)
    (hb2 : findBracket lg'.message = some ("cart".toList))
    (ha2 : findArrow lg'.message
      = some (("merchant_agent".toList), ("shipping_agent".toList)))
    (hag2 : lg'.agent = ("shipping_agent".toList)) :
    (classifyA2A lg t).map dirFromToMethod
      = some (Direction.outgoing, ("shipping_agent".toList),
          ("merchant".toList), ("quote".toList))
    ∧ (classifyA2A lg' t').map dirFromToMethod
      = some (Direction.incoming, ("merchant".toList),
          ("shipping_agent".toList), ("cart".toList)) := by
  constructor
  · simp only [classifyA2A, parseDirFromTo, dirFromToMethod, hs, hb, ha, hag,
      Bool.true_or, if_true, Option.map_some', Option.getD_some]
    refine congrArg some ?_
    decide
  · simp only [classifyA2A, parseDirFromTo, dirFromToMethod, hr2, hs2, hb2, ha2, hag2,
      Bool.false_or, if_true, if_false, Option.map_some', Option.getD_some]
    refine congrArg some ?_
    decide

/-- Claim C1 witness: the amended theorem applied to the two canonical
spec test-vector messages. -/
theorem classifier_first_match_vectors_witness :
    (classifyA2A sentRec 0).map dirFromToMethod
      = some (Direction.outgoing, ("shipping_agent".toList),
          ("merchant".toList), ("quote".toList))
    ∧ (classifyA2A recvRec 0).map dirFromToMethod
      = some (Direction.incoming, ("merchant".toList),
          ("shipping_agent".toList), ("cart".toList)) :=
  classifier_first_match_vectors sentRec recvRec 0 0
    (by decide) (by decide) (by decide) (by decide)
    (by decide) (by decide) (by decide) (by decide) (by decide)

/-- `hasIntent` holds exactly when some retained record passes both the
relevance filter and the intent-creation vocabulary test. -/
theorem hasIntent_iff (logs : List LogRecord) :
    hasIntent logs = true
      ↔ ∃ r, r ∈ logs ∧ (relevantEvent r && intentEvidence r) = true := by
  simp [hasIntent, List.any_eq_true, List.mem_filter, Bool.and_eq_true, and_assoc]

/-- Claim C3: stage 1 ("Intent Capture") of the mandate timeline is
`completed` iff some *currently retained* log record satisfies the
intent-creation vocabulary rule (the code's relevance filter plus
intent-evidence test), and is `pending` iff no retained record does —
in particular, once every such record has been evicted from the buffer,
recomputing the timeline yields `pending` again.  The timeline is a
pure function of the buffer contents by construction. -/
theorem timeline_stage1_iff_retained_evidence :
    ∀ logs : List LogRecord,
      ((mandateTimeline logs).head? = some
          { step := 1, name := ("Intent Capture".toList),
            description := ("User specifies travel preferences".toList),
            status := StageStatus.completed }
        ↔ ∃ r, r ∈ logs ∧ (relevantEvent r && intentEvidence r) = true)
      ∧ ((mandateTimeline logs).head? = some
          { step := 1, name := ("Intent Capture".toList),
            description := ("User specifies travel preferences".toList),
            status := StageStatus.pending }
        ↔ ¬ ∃ r, r ∈ logs ∧ (relevantEvent r && intentEvidence r) = true) := by
  intro logs
  rw [← hasIntent_iff]
  cases hI : hasIntent logs with
  | true =>
      constructor
      · simp [mandateTimeline, hI]
      · simp [mandateTimeline, hI]
  | false =>
      constructor
      · simp [mandateTimeline, hI]
      · simp [mandateTimeline, hI]

/-- Claim C3 witness: a buffer holding one intent-creation record has a
completed stage 1; the empty buffer (every record evicted) is pending. -/
theorem timeline_stage1_iff_retained_evidence_witness :
    (mandateTimeline [intentLogRec]).head? = some
        { step := 1, name := ("Intent Capture".toList),
          description := ("User specifies travel preferences".toList),
          status := StageStatus.completed }
    ∧ (mandateTimeline []).head? = some
        { step := 1, name := ("Intent Capture".toList),
          description := ("User specifies travel preferences".toList),
          status := StageStatus.pending } :=
  ⟨((timeline_stage1_iff_retained_evidence [intentLogRec]).1).mpr
      ⟨intentLogRec, List.mem_singleton.mpr rfl, by decide⟩,
    ((timeline_stage1_iff_retained_evidence []).2).mpr (by simp)⟩

/-- Claim C4: the tamper detector reports a mandate invalid exactly when
an edited serialization is present and differs byte-for-byte from the
canonical serialization; in particular the cosmetic whitespace edit
turning the canonical form into a semantically identical JSON text is
reported invalid. -/
theorem tamper_detector_strict_byte_compare :
    (∀ (edited : Option (List Char)) (canonical : List Char),
        isModified edited canonical = true
          ↔ edited ≠ none ∧ edited ≠ some canonical)
    ∧ isModified (some editedA) canonA = true := by
  constructor
  · intro e c
    simp [isModified]
  · decide

/-- Claim C4 witness: the general characterisation applied at a
concrete edited/canonical pair. -/
theorem tamper_detector_strict_byte_compare_witness :
    isModified (some editedA) ("x".toList) = true :=
  (tamper_detector_strict_byte_compare.1 (some editedA) ("x".toList)).mpr
    (by decide)

/-- Claim C5 counterexample: after a failed cart-mandate call on stage 3
(error set, stage kept), a successful retry stores the mandate and
advances to stage 4 — but the error field still holds the old server
message; it is *not* cleared back to null (the success branch of
`handleSelectPayment` never calls `setError(null)`). -/
theorem checkout_success_does_not_clear_error_cex :
    stage3Failed.currentStep = 3
    ∧ stage3Failed.error = some errBoom
    ∧ stage4Retried.currentStep = 4
    ∧ stage4Retried.cartMandate = some mandOne
    ∧ stage4Retried.error = some errBoom
    ∧ ¬ stage4Retried.error = none := by
  decide

/-- Claim C5 (amended): a failed cart-mandate-creation call from stage 3
leaves `currentStage` at 3 and sets the error to the server-provided
message; a subsequent successful call stores the returned mandate and
advances to stage 4, while leaving the error field unchanged (the prior
message is not cleared). -/
theorem checkout_fail_then_success_behavior (s : CheckoutState)
    (tok tok2 e m : List Char) (h3 : s.currentStep = 3) :
    (handleSelectPayment s tok (CartMandateResult.fail e)).currentStep = 3
    ∧ (handleSelectPayment s tok (CartMandateResult.fail e)).error = some e
    ∧ (handleSelectPayment (handleSelectPayment s tok (CartMandateResult.fail e))
        tok2 (CartMandateResult.ok m)).currentStep = 4
    ∧ (handleSelectPayment (handleSelectPayment s tok (CartMandateResult.fail e))
        tok2 (CartMandateResult.ok m)).cartMandate = some m
    ∧ (handleSelectPayment (handleSelectPayment s tok (CartMandateResult.fail e))
        tok2 (CartMandateResult.ok m)).error = some e := by
  exact ⟨h3, rfl, rfl, rfl, rfl⟩

/-- Claim C5 witness: the amended theorem applied to a concrete stage-3
state, a concrete failure and a concrete successful retry. -/
theorem checkout_fail_then_success_behavior_witness :
    (handleSelectPayment stage3State tokVisa (CartMandateResult.fail errBoom)).currentStep = 3
    ∧ (handleSelectPayment stage3State tokVisa (CartMandateResult.fail errBoom)).error
        = some errBoom
    ∧ (handleSelectPayment
        (handleSelectPayment stage3State tokVisa (CartMandateResult.fail errBoom))
        tokVisa (CartMandateResult.ok mandOne)).currentStep = 4
    ∧ (handleSelectPayment
        (handleSelectPayment stage3State tokVisa (CartMandateResult.fail errBoom))
        tokVisa (CartMandateResult.ok mandOne)).cartMandate = some mandOne
    ∧ (handleSelectPayment
        (handleSelectPayment stage3State tokVisa (CartMandateResult.fail errBoom))
        tokVisa (CartMandateResult.ok mandOne)).error = some errBoom :=
  checkout_fail_then_success_behavior stage3State tokVisa tokVisa errBoom mandOne rfl

/-- Claim C6: the unmount cleanup closes the `EventSource` but never
cancels the `setTimeout` reconnection timer (the source does not even
store the timeout id), so an execution in which a connection error
precedes teardown still has a pending timer after teardown, and when
that timer fires it opens a fresh connection — background work does
continue after teardown, contradicting the claim/spec. -/
theorem teardown_pending_timer_reopens_connection :
    (runStream initStreamState [StreamEvent.onError, StreamEvent.teardown]).pendingTimers = 1
    ∧ (runStream initStreamState [StreamEvent.onError, StreamEvent.teardown]).tornDown = true
    ∧ (runStream initStreamState [StreamEvent.onError, StreamEvent.teardown]).esOpen = false
    ∧ (runStream initStreamState
        [StreamEvent.onError, StreamEvent.teardown, StreamEvent.timerFire]).opensAfterTeardown = 1
    ∧ (runStream initStreamState
        [StreamEvent.onError, StreamEvent.teardown, StreamEvent.timerFire]).esOpen = true := by
  decide

/-- Claim C7: every connection error sets the connection flag false,
closes the connection, and schedules exactly one reconnection attempt
with the fixed 3000 ms delay — with no backoff growth and no retry
limit; a successful open sets the flag true immediately.  On the trace
with three consecutive errors, exactly three reconnection attempts run,
all three scheduled delays equal the fixed interval, and the flag is
false throughout the error windows and true after the final open. -/
theorem stream_reconnect_policy :
    (∀ s : StreamState,
        (streamStep s StreamEvent.onError).isConnected = false
        ∧ (streamStep s StreamEvent.onError).esOpen = false
        ∧ (streamStep s StreamEvent.onError).pendingTimers = s.pendingTimers + 1
        ∧ (streamStep s StreamEvent.onError).scheduledDelays
            = s.scheduledDelays ++ [reconnectDelayMs])
    ∧ (∀ s : StreamState, (streamStep s StreamEvent.onOpen).isConnected = true)
    ∧ reconnectDelayMs = 3000
    ∧ (runStream initStreamState threeErrorsTrace).reconnectAttempts = 3
    ∧ (runStream initStreamState threeErrorsTrace).scheduledDelays
        = [reconnectDelayMs, reconnectDelayMs, reconnectDelayMs]
    ∧ (runStream initStreamState threeErrorsTrace).pendingTimers = 0
    ∧ (runStream initStreamState (threeErrorsTrace.take 2)).isConnected = false
    ∧ (runStream initStreamState (threeErrorsTrace.take 3)).isConnected = false
    ∧ (runStream initStreamState (threeErrorsTrace.take 4)).isConnected = false
    ∧ (runStream initStreamState (threeErrorsTrace.take 5)).isConnected = false
    ∧ (runStream initStreamState (threeErrorsTrace.take 6)).isConnected = false
    ∧ (runStream initStreamState (threeErrorsTrace.take 7)).isConnected = false
    ∧ (runStream initStreamState threeErrorsTrace).isConnected = true := by
  refine ⟨fun s => ⟨rfl, rfl, rfl, rfl⟩, fun s => rfl, rfl,
    ?_, ?_, ?_, ?_, ?_, ?_, ?_, ?_, ?_, ?_⟩ <;> decide

/-- Claim C8 counterexample: classifying the same record in two runs
(one ambient `Date.now() + Math.random()` value per run) yields
messages that differ — precisely in the locally generated `id` field,
which the claim requires to be identical. -/
theorem classify_same_record_ids_differ_cex :
    ¬ classifyA2A sentRec 0 = classifyA2A sentRec 1
    ∧ (classifyA2A sentRec 0).map ProtocolMessage.id = some 0
    ∧ (classifyA2A sentRec 1).map ProtocolMessage.id = some 1
    ∧ (classifyA2A sentRec 0).map msgCore = (classifyA2A sentRec 1).map msgCore := by
  decide

/-- Claim C8 (amended): classifying the same `LogRecord` twice yields
`ProtocolMessage`s identical in every field *except* `id`; the `id` is
freshly generated per invocation from the ambient clock and PRNG, so
only the id-erased message is a deterministic function of the record. -/
theorem classify_deterministic_except_id :
    ∀ (r : LogRecord) (t1 t2 : Nat),
      (classifyA2A r t1).map msgCore = (classifyA2A r t2).map msgCore := by
  intro r t1 t2
  simp only [classifyA2A]
  split
  · rfl
  · rfl

/-- Claim C9 counterexample: an inbound-sentinel record with no arrow
pair takes the fallback parse, producing an *incoming* message whose
`from` is the observing agent itself and whose `to` is `unknown` — the
direction/endpoint consistency invariant requires the reverse. -/
theorem incoming_fallback_breaks_consistency_cex :
    (classifyA2A noArrowRec 0).map
        (fun m => (m.direction, m.fromAgent, m.toAgent))
      = some (Direction.incoming, ("shipping_agent".toList), ("unknown".toList))
    ∧ noArrowRec.agent = ("shipping_agent".toList)
    ∧ ¬ ("unknown".toList) = noArrowRec.agent := by
  decide

/-- Claim C9 (amended): for records whose text contains an
arrow-separated agent pair and whose `agent` field is non-empty, every
produced message satisfies the consistency invariant: outgoing messages
have `from` = the record's agent and `to` = the parsed destination
(suffix-stripped); incoming messages have `to` = the record's agent and
`from` = the parsed source (suffix-stripped).  Fallback-parse messages
do not satisfy it in the incoming direction. -/
theorem classifier_arrow_consistency (lg : LogRecord) (t : Nat)
    (pf pt : List Char) (m : ProtocolMessage)
    (ha : findArrow lg.message = some (pf, pt))
    (hag : ¬ lg.agent = [])
    (hm : classifyA2A lg t = some m) :
    (m.direction = Direction.outgoing
      → m.fromAgent = lg.agent ∧ m.toAgent = replaceFirst agentSuffix pt)
    ∧ (m.direction = Direction.incoming
      → m.toAgent = lg.agent ∧ m.fromAgent = replaceFirst agentSuffix pf) := by
  have hjs : jsOr lg.agent pf = lg.agent := by
    cases h : lg.agent with
    | nil => exact absurd h hag
    | cons c rest => simp [jsOr]
  have hjs2 : jsOr lg.agent pt = lg.agent := by
    cases h : lg.agent with
    | nil => exact absurd h hag
    | cons c rest => simp [jsOr]
  simp only [classifyA2A] at hm
  split at hm
  · injection hm with hm
    subst hm
    simp only [parseDirFromTo, ha]
    cases hsent : containsSub lg.message a2aSentMark with
    | true =>
        constructor
        · intro _; simp [hsent, hjs]
        · intro hdir; simp [hsent] at hdir
    | false =>
        constructor
        · intro hdir; simp [hsent] at hdir
        · intro _; simp [hsent, hjs2]
  · exact absurd hm (by simp)

/-- Claim C9 witness: the amended consistency theorem applied to the
canonical outbound record and the message it produces. -/
theorem classifier_arrow_consistency_witness :
    (quoteMsg.direction = Direction.outgoing
      → quoteMsg.fromAgent = sentRec.agent
        ∧ quoteMsg.toAgent = replaceFirst agentSuffix ("merchant_agent".toList))
    ∧ (quoteMsg.direction = Direction.incoming
      → quoteMsg.toAgent = sentRec.agent
        ∧ quoteMsg.fromAgent = replaceFirst agentSuffix ("shipping_agent".toList)) :=
  classifier_arrow_consistency sentRec 0
    ("shipping_agent".toList) ("merchant_agent".toList) quoteMsg
    (by decide) (by decide) (by decide)

/-- Claim C10: every message the classifier appends to the message
buffer has status `success`; the `error` status of the data model is
never produced by this pipeline, regardless of the record's level or
content. -/
theorem classifier_status_always_success :
    ∀ (r : LogRecord) (t : Nat) (m : ProtocolMessage),
      classifyA2A r t = some m → m.status = MsgStatus.success := by
  intro r t m h
  simp only [classifyA2A] at h
  split at h
  · injection h with h
    subst h
    rfl
  · exact absurd h (by simp)

/-- Claim C10 witness: the status theorem applied to the canonical
outbound record and its produced message. -/
theorem classifier_status_always_success_witness :
    quoteMsg.status = MsgStatus.success :=
  classifier_status_always_success sentRec 0 quoteMsg (by decide)
